import Mathlib

/-!
Verification of the smarthome IoT bridge repository.

This file embeds, as executable Lean definitions, the parts of the code that
the specification's claims are about:

* `src/smarthome/devices/tapo_bulb.py` — the `MockTapoBulb` device driver
  (state record, persistence to a backing store, the `turn_on` / `turn_off` /
  `set_brightness` / `get_status` actions, the capability-interface methods
  `execute`, `apply_desired_state`, `get_shadow_state`);
* `src/smarthome/bridge/device_registry.py` — the `DeviceRegistry` operations;
* `src/smarthome/bridge/iot_bridge.py` — the `IoTBridge` class as it stands
  in the source: a single-bulb bridge whose `start` disables itself through
  an exponential reconnect-delay backoff, whose `_handle_command` extracts
  only the action from the topic and dispatches through `_action_handlers`
  to the one configured bulb, and whose `_publish_response` payload carries
  `request_id` / `success` / `message` / `state` / `timestamp`.

Python dictionaries are embedded as association lists with first-key-wins
lookup; Python exceptions as `Except` / explicit error components; wall-clock
timestamps as opaque `String` parameters threaded through the operations.
Transport and device effects (connect, subscribe, publish, shadow updates,
handler dispatch) are recorded as an explicit event trace so that theorems
can speak about what the bridge did and did not do.
-/

set_option autoImplicit false

namespace SmartHome

/-- A JSON-ish scalar value as it appears in command parameter maps and in
device-state dictionaries (`tapo_bulb.py` uses booleans, integers and
strings; `None` models Python `None`/JSON `null`). -/
inductive PVal where
  | vbool (b : Bool)
  | vint (n : Int)
  | vstr (s : String)
  | vnull
  deriving Repr, DecidableEq

/-- A Python `dict` with string keys, embedded as an association list. -/
abbrev Params := List (String × PVal)

/-- First-match key lookup, the embedding of Python `dict.get` /
`dict[...]` access (dict keys are unique, so first match is the match). -/
def lookupKey {α : Type} (k : String) : List (String × α) → Option α
  | [] => none
  | (k', v) :: rest => if k' = k then some v else lookupKey k rest

/-- Decimal digits to a number, `none` when empty or not all digits. -/
def natOfDigits (cs : List Char) : Option Nat :=
  if cs = [] then none
  else if cs.all Char.isDigit then
    some (cs.foldl (fun acc c => acc * 10 + (c.toNat - 48)) 0)
  else none

/-- Python `int(str)` on a decimal string with an optional sign;
`none` models the `ValueError` raised on anything else. -/
def pyParseInt (s : String) : Option Int :=
  match s.data with
  | '-' :: cs => (natOfDigits cs).map (fun n => -(n : Int))
  | '+' :: cs => (natOfDigits cs).map (fun n => (n : Int))
  | cs => (natOfDigits cs).map (fun n => (n : Int))

/-- Python `int(value)` conversion as used on the `brightness` parameter in
`tapo_bulb.py`: integers pass through, booleans coerce, numeric strings
parse, anything else raises `ValueError` (embedded as `Except.error`). -/
def pyInt : PVal → Except String Int
  | .vint n => .ok n
  | .vbool b => .ok (if b then 1 else 0)
  | .vstr s =>
    match pyParseInt s with
    | some n => .ok n
    | none => .error ("invalid literal for int() with base 10: " ++ s)
  | .vnull => .error "int() argument must be a string or a number, not NoneType"

/-- Python truthiness, as used by `if desired[..]:` in `apply_desired_state`. -/
def pyTruthy : PVal → Bool
  | .vbool b => b
  | .vint n => n != 0
  | .vstr s => s != ""
  | .vnull => false

/-- The mutable state record of the mock bulb
(`tapo_bulb.py` `self.state`: `is_on`, `brightness`, `color_temp`,
`last_updated`). -/
structure BulbState where
  is_on : Bool
  brightness : Int
  color_temp : Int
  last_updated : String
  deriving Repr, DecidableEq

/-- The `MockTapoBulb` object: its in-memory state plus the contents of its
JSON backing store (`self.state_file`); `none` models a missing or
unreadable file. -/
structure MockTapoBulb where
  state : BulbState
  state_file : Option BulbState
  deriving Repr, DecidableEq

namespace MockTapoBulb

/-- The default state returned by `_load_state` when no state file exists
(`is_on=False`, `brightness=100`, `color_temp=2700`). -/
def default_state (now : String) : BulbState :=
  { is_on := false, brightness := 100, color_temp := 2700, last_updated := now }

/-- `MockTapoBulb._load_state` (`tapo_bulb.py` lines 35–50): read the state
file if present, otherwise the default state. -/
def load_state (file : Option BulbState) (now : String) : BulbState :=
  match file with
  | some st => st
  | none => default_state now

/-- `MockTapoBulb.__init__`: load state from the backing store. -/
def init (file : Option BulbState) (now : String) : MockTapoBulb :=
  { state := load_state file now, state_file := file }

/-- `MockTapoBulb._save_state` (`tapo_bulb.py` lines 52–60): refresh
`last_updated` and write the whole state record to the backing store. -/
def save_state (now : String) (b : MockTapoBulb) : MockTapoBulb :=
  let st := { b.state with last_updated := now }
  { state := st, state_file := some st }

/-- `MockTapoBulb.get_status`: the full state dictionary. -/
def get_status (b : MockTapoBulb) : Params :=
  [("is_on", .vbool b.state.is_on),
   ("brightness", .vint b.state.brightness),
   ("color_temp", .vint b.state.color_temp),
   ("last_updated", .vstr b.state.last_updated)]

/-- `MockTapoBulb.get_shadow_state`: the shadow snapshot, without
`last_updated`. -/
def get_shadow_state (b : MockTapoBulb) : Params :=
  [("is_on", .vbool b.state.is_on),
   ("brightness", .vint b.state.brightness),
   ("color_temp", .vint b.state.color_temp)]

/-- The result dictionary of a device action: `success`, `message`, and an
optional `state` entry (the out-of-range branch of `set_brightness` returns
a dictionary with no `state` key, hence the `Option`). -/
structure ExecResult where
  success : Bool
  message : String
  state : Option Params
  deriving Repr, DecidableEq

/-- `MockTapoBulb.turn_on`: set `is_on`, save, report status. -/
def turn_on (now : String) (b : MockTapoBulb) : ExecResult × MockTapoBulb :=
  let b' := save_state now { b with state := { b.state with is_on := true } }
  ({ success := true, message := "Bulb turned on", state := some (get_status b') }, b')

/-- `MockTapoBulb.turn_off`: clear `is_on`, save, report status. -/
def turn_off (now : String) (b : MockTapoBulb) : ExecResult × MockTapoBulb :=
  let b' := save_state now { b with state := { b.state with is_on := false } }
  ({ success := true, message := "Bulb turned off", state := some (get_status b') }, b')

/-- `MockTapoBulb.set_brightness` (`tapo_bulb.py` lines 90–103): reject a
value outside `[0, 100]` with a failure dictionary (note: no `state` key)
and no state change; otherwise mutate, save and report. -/
def set_brightness (now : String) (n : Int) (b : MockTapoBulb) :
    ExecResult × MockTapoBulb :=
  if 0 ≤ n ∧ n ≤ 100 then
    let b' := save_state now { b with state := { b.state with brightness := n } }
    ({ success := true, message := "Brightness set to " ++ toString n,
       state := some (get_status b') }, b')
  else
    ({ success := false,
       message := "Brightness must be 0-100, got " ++ toString n,
       state := none }, b)

/-- `MockTapoBulb.supported_actions`. -/
def supported_actions : List String :=
  ["turn_on", "turn_off", "set_brightness", "get_status"]

/-- `MockTapoBulb.execute` (`tapo_bulb.py` lines 115–141).  Unknown actions
and a missing `brightness` parameter produce failure dictionaries; the
`int(brightness)` conversion can raise (`Except.error`), which propagates
out of `execute`. -/
def execute (now : String) (action : String) (parameters : Params)
    (b : MockTapoBulb) : Except String (ExecResult × MockTapoBulb) :=
  if action ∉ supported_actions then
    .ok ({ success := false, message := "Unknown action: " ++ action,
           state := some (get_shadow_state b) }, b)
  else if action = "turn_on" then
    .ok (turn_on now b)
  else if action = "turn_off" then
    .ok (turn_off now b)
  else if action = "set_brightness" then
    match lookupKey "brightness" parameters with
    | none =>
      .ok ({ success := false, message := "brightness parameter required",
             state := some (get_shadow_state b) }, b)
    | some .vnull =>
      .ok ({ success := false, message := "brightness parameter required",
             state := some (get_shadow_state b) }, b)
    | some v =>
      match pyInt v with
      | .error e => .error e
      | .ok n => .ok (set_brightness now n b)
  else
    .ok ({ success := true, message := "Status retrieved",
           state := some (get_status b) }, b)

/-- The `if "is_on" in desired:` block of `apply_desired_state`: turn the
bulb on or off by the truthiness of the value. -/
def apply_is_on (now : String) (desired : Params) (b : MockTapoBulb) :
    MockTapoBulb :=
  match lookupKey "is_on" desired with
  | none => b
  | some v => if pyTruthy v then (turn_on now b).2 else (turn_off now b).2

/-- The `if "brightness" in desired:` block of `apply_desired_state`:
`int(...)` on the value can raise, carried as the optional error. -/
def apply_brightness (now : String) (desired : Params) (b : MockTapoBulb) :
    Option String × MockTapoBulb :=
  match lookupKey "brightness" desired with
  | none => (none, b)
  | some v =>
    match pyInt v with
    | .error e => (some e, b)
    | .ok n => (none, (set_brightness now n b).2)

/-- `MockTapoBulb.apply_desired_state` (`tapo_bulb.py` lines 143–150): apply
the `is_on` key (by truthiness) then the `brightness` key; `int(...)` on the
brightness value can raise after `is_on` was already applied, so the result
carries the possibly partially-mutated bulb alongside the error. -/
def apply_desired_state (now : String) (desired : Params) (b : MockTapoBulb) :
    Option String × MockTapoBulb :=
  apply_brightness now desired (apply_is_on now desired b)

end MockTapoBulb

namespace DeviceRegistry

/-- `DeviceRegistry.register` (`device_registry.py` lines 17–29): raise
`ValueError` if the id is taken — the raise happens before the insertion, so
the mapping is returned untouched in that case — otherwise insert at the end
(Python dict insertion order). -/
def register {α : Type} (device_id : String) (device : α)
    (r : List (String × α)) : Except String Unit × List (String × α) :=
  if (lookupKey device_id r).isSome then
    (.error ("Device already registered: " ++ device_id), r)
  else
    (.ok (), r ++ [(device_id, device)])

/-- `DeviceRegistry.unregister` (`device_registry.py` lines 31–40):
`dict.pop(device_id, None)` — return the removed device (or `none`) and the
mapping without that key. -/
def unregister {α : Type} (device_id : String) (r : List (String × α)) :
    Option α × List (String × α) :=
  (lookupKey device_id r, r.filter (fun p => p.1 ≠ device_id))

/-- `DeviceRegistry.get`: lookup by id. -/
def get {α : Type} (device_id : String) (r : List (String × α)) : Option α :=
  lookupKey device_id r

end DeviceRegistry

/-- A value in an outbound response payload: the `request_id` / `message` /
`timestamp` strings, the `success` boolean, and the nested `state` object. -/
inductive RVal where
  | rbool (b : Bool)
  | rstr (s : String)
  | robj (fields : Params)
  deriving Repr, DecidableEq

/-- An operation performed on the MQTT transport, the shadow, or the bulb
action handlers, recorded as an event so that theorems can speak about what
the bridge did and did not do. -/
inductive TOp where
  | connect
  | subscribe (topic : String)
  | subscribeDelta
  | dispatch (action : String)
  | publish (topic : String) (payload : List (String × RVal))
  | shadowUpdate (payload : Params)
  deriving Repr, DecidableEq

/-- An inbound command payload, after the `json.loads` attempt: either not
valid JSON (`malformed`), or an object with optional `request_id` and
`parameters` members. -/
inductive InPayload where
  | malformed
  | json (request_id : Option String) (parameters : Option Params)
  deriving Repr, DecidableEq

/-- `MIN_RECONNECT_DELAY_SEC` (`iot_bridge.py` line 20). -/
def MIN_RECONNECT_DELAY_SEC : Nat := 1

/-- `MAX_RECONNECT_DELAY_SEC` (`iot_bridge.py` line 21). -/
def MAX_RECONNECT_DELAY_SEC : Nat := 128

/-- The state held by an `IoTBridge` object (`iot_bridge.py` lines 39–69):
the configured device id (from `config.device_id`, fixing the topic
prefixes), the single bulb, whether `_connection` and `_shadow_manager` are
set, the `_running` and `_disabled` flags, and `_reconnect_delay`. -/
structure BridgeState where
  device_id : String
  bulb : MockTapoBulb
  connection : Bool
  shadow_manager : Bool
  running : Bool
  disabled : Bool
  reconnect_delay : Nat
  deriving Repr, DecidableEq

namespace IoTBridge

/-- `IoTBridge.__init__` (`iot_bridge.py` lines 39–69): no connection, no
shadow manager, not running, not disabled, reconnect delay at the minimum. -/
def init (device_id : String) (bulb : MockTapoBulb) : BridgeState :=
  { device_id := device_id, bulb := bulb, connection := false,
    shadow_manager := false, running := false, disabled := false,
    reconnect_delay := MIN_RECONNECT_DELAY_SEC }

/-- `IoTBridge._handle_connection_failure` (`iot_bridge.py` lines 156–164):
double the reconnect delay, capped at `MAX_RECONNECT_DELAY_SEC`; once the
delay has reached the cap, disable the bridge. -/
def handle_connection_failure (b : BridgeState) : BridgeState :=
  let d := Nat.min (b.reconnect_delay * 2) MAX_RECONNECT_DELAY_SEC
  if MAX_RECONNECT_DELAY_SEC ≤ d then
    { b with reconnect_delay := d, disabled := true }
  else
    { b with reconnect_delay := d }

/-- `IoTBridge._report_current_state` (`iot_bridge.py` lines 329–344): if a
shadow manager is held, report the bulb status plus the
`bridge_connected` / `device_reachable` flags. -/
def report_current_state (b : BridgeState) : List TOp :=
  if b.shadow_manager then
    [TOp.shadowUpdate (MockTapoBulb.get_status b.bulb
      ++ [("bridge_connected", PVal.vbool true),
          ("device_reachable", PVal.vbool true)])]
  else []

/-- `IoTBridge.start` (`iot_bridge.py` lines 71–113): return `false`
immediately when disabled, touching nothing; otherwise create the
connection object (so `_connection` is set even if the connect attempt then
raises), connect, set up the shadow manager, subscribe to the single
command-topic pattern `smarthome/{device_id}/commands/+` and the shadow
delta stream, report initial state, set `running` and reset the reconnect
delay.  `ok` stands for whether the connect/subscribe sequence raises; the
failure case models the earliest fallible operation (the connect attempt)
raising, after which `_handle_connection_failure` runs and `false` is
returned. -/
def start (ok : Bool) (b : BridgeState) : Bool × BridgeState × List TOp :=
  if b.disabled then
    (false, b, [])
  else if ok then
    let b' := { b with connection := true, shadow_manager := true,
                       running := true,
                       reconnect_delay := MIN_RECONNECT_DELAY_SEC }
    (true, b',
     [TOp.connect,
      TOp.subscribe ("smarthome/" ++ b.device_id ++ "/commands/+"),
      TOp.subscribeDelta] ++ report_current_state b')
  else
    (false, { handle_connection_failure b with connection := true },
     [TOp.connect])

/-- `topic.split("/")[-1]` (`iot_bridge.py` line 204): the characters after
the last `/`. -/
def topic_action (topic : String) : String :=
  String.mk (topic.data.foldl (fun acc c => if c = '/' then [] else acc ++ [c]) [])

/-- The keys of `_action_handlers` (`iot_bridge.py` lines 64–69). -/
def action_handlers : List String :=
  ["turn_on", "turn_off", "get_status", "set_brightness"]

/-- `data.get("request_id", str(uuid.uuid4()))` (`iot_bridge.py` line 212):
the payload `request_id`, or the freshly generated id when the payload is
malformed (`data = {}`) or has no `request_id` member. -/
def request_id_of (payload : InPayload) (generated : String) : String :=
  match payload with
  | .malformed => generated
  | .json rid _ => rid.getD generated

/-- `data.get("parameters", {})` (`iot_bridge.py` line 213): the payload
parameter map, empty when the payload is malformed or has no `parameters`
member. -/
def params_of (payload : InPayload) : Params :=
  match payload with
  | .malformed => []
  | .json _ ps => ps.getD []

/-- `data.get("request_id", "unknown")` in the exception handler
(`iot_bridge.py` line 244): note the `"unknown"` default there, not the
generated id. -/
def except_request_id (payload : InPayload) : String :=
  match payload with
  | .malformed => "unknown"
  | .json rid _ => rid.getD "unknown"

/-- The `_publish_response` payload (`iot_bridge.py` lines 280–288): a JSON
object with exactly the members `request_id`, `success`, `message`,
`state`, `timestamp` — there is no `device_id` member. -/
def response_payload (request_id : String) (success : Bool)
    (message : String) (state : Params) (now : String) :
    List (String × RVal) :=
  [("request_id", .rstr request_id),
   ("success", .rbool success),
   ("message", .rstr message),
   ("state", .robj state),
   ("timestamp", .rstr now)]

/-- `IoTBridge._publish_response` (`iot_bridge.py` lines 272–299): return
without publishing when no connection is held; otherwise publish the
payload on `smarthome/{config.device_id}/responses/{request_id}` — the
configured device id, whatever device id the command topic named (publish
failures are logged, never raised). -/
def publish_response (request_id : String) (success : Bool)
    (message : String) (state : Params) (now : String) (b : BridgeState) :
    List TOp :=
  if b.connection then
    [TOp.publish ("smarthome/" ++ b.device_id ++ "/responses/" ++ request_id)
      (response_payload request_id success message state now)]
  else []

/-- The `_handle_turn_on` / `_handle_turn_off` / `_handle_get_status` /
`_handle_set_brightness` methods (`iot_bridge.py` lines 252–270), looked up
by action name; this is called only for actions in `action_handlers`, so
the final branch is `_handle_set_brightness`, whose `int(brightness)` can
raise (`Except.error`). -/
def run_handler (now action : String) (parameters : Params)
    (bulb : MockTapoBulb) :
    Except String (MockTapoBulb.ExecResult × MockTapoBulb) :=
  if action = "turn_on" then .ok (MockTapoBulb.turn_on now bulb)
  else if action = "turn_off" then .ok (MockTapoBulb.turn_off now bulb)
  else if action = "get_status" then
    .ok ({ success := true, message := "Status retrieved",
           state := some (MockTapoBulb.get_status bulb) }, bulb)
  else
    match lookupKey "brightness" parameters with
    | none =>
      .ok ({ success := false, message := "brightness parameter required",
             state := none }, bulb)
    | some .vnull =>
      .ok ({ success := false, message := "brightness parameter required",
             state := none }, bulb)
    | some v =>
      match pyInt v with
      | .error e => .error e
      | .ok n => .ok (MockTapoBulb.set_brightness now n bulb)

/-- `IoTBridge._handle_command` (`iot_bridge.py` lines 195–250).  Only the
action is taken from the topic — the device-id segment is never read; a
JSON parse failure yields `data = {}`; a `request_id` is generated when
absent; the handler for the action is dispatched on the single configured
bulb if one exists, otherwise an `"Unknown action"` failure response is
built with the bulb status; the outcome is published, and on success the
state (plus connectivity flags) is reported to the shadow.  An exception
escaping a handler is caught by the outer `try` and still publishes a
best-effort failure response, whose `request_id` falls back to
`"unknown"`. -/
def handle_command (topic : String) (payload : InPayload)
    (generated now : String) (b : BridgeState) : BridgeState × List TOp :=
  let action := topic_action topic
  let request_id := request_id_of payload generated
  let parameters := params_of payload
  if action ∈ action_handlers then
    match run_handler now action parameters b.bulb with
    | .error e =>
      (b, TOp.dispatch action
        :: publish_response (except_request_id payload) false e [] now b)
    | .ok (result, bulb') =>
      ({ b with bulb := bulb' },
       TOp.dispatch action
         :: (publish_response request_id result.success result.message
               (result.state.getD []) now b
             ++ (if result.success && b.shadow_manager then
                   [TOp.shadowUpdate ((result.state.getD [])
                     ++ [("bridge_connected", PVal.vbool true),
                         ("device_reachable", PVal.vbool true)])]
                 else [])))
  else
    (b, publish_response request_id false ("Unknown action: " ++ action)
      (MockTapoBulb.get_status b.bulb) now b)

/-- `IoTBridge._apply_desired_state` (`iot_bridge.py` lines 309–327): the
same `is_on` / `brightness` statement blocks as the device-level
`apply_desired_state`, applied to the single bulb, followed by a state
report — all inside a `try` whose `except` only logs, so an `int(...)`
error skips the report but keeps any mutation already made. -/
def apply_desired_state (now : String) (desired : Params)
    (b : BridgeState) : BridgeState × List TOp :=
  let step := MockTapoBulb.apply_brightness now desired
    (MockTapoBulb.apply_is_on now desired b.bulb)
  let b' := { b with bulb := step.2 }
  (b', if step.1.isSome then [] else report_current_state b')

end IoTBridge

/-- Iterated failed `start` attempts: run `start` with a failing transport
`n` times from the given state, keeping the resulting state each time. -/
def iterate_failed_starts : Nat → BridgeState → BridgeState
  | 0, b => b
  | n + 1, b => iterate_failed_starts n (IoTBridge.start false b).2.1

/-- Whether a transport operation is a publish. -/
def isPublish : TOp → Bool
  | .publish _ _ => true
  | _ => false

/-- A concrete mock bulb in its default state, for witnesses. -/
def bulb0 : MockTapoBulb := MockTapoBulb.init none "t0"

/-- A concrete bridge configured for `test-device`, in the state reached by
a successful `start`, for witnesses and counterexamples. -/
def bridge_started : BridgeState :=
  (IoTBridge.start true (IoTBridge.init "test-device" bulb0)).2.1

/-! ## Shared lemmas -/

/-- Removing every entry with a key makes lookup of that key fail. -/
lemma lookupKey_filter_ne {α : Type} (id : String) (r : List (String × α)) :
    lookupKey id (r.filter (fun p => p.1 ≠ id)) = none := by
  induction r with
  | nil => rfl
  | cons p r ih =>
    by_cases h : p.1 = id
    · simpa [List.filter_cons, h] using ih
    · simpa [List.filter_cons, h, lookupKey] using ih

/-- Lookup over an append skips a prefix in which the key does not occur. -/
lemma lookupKey_append {α : Type} (id : String) (l1 l2 : List (String × α))
    (h : lookupKey id l1 = none) :
    lookupKey id (l1 ++ l2) = lookupKey id l2 := by
  induction l1 with
  | nil => rfl
  | cons p l1 ih =>
    by_cases hp : p.1 = id
    · simp [lookupKey, hp] at h
    · simp only [lookupKey, hp, if_false, List.cons_append, if_neg hp] at h ⊢
      exact ih h

/-- Lookup through a key-preserving value map. -/
lemma lookupKey_map_value {α β : Type} (id : String)
    (f : String → α → β) (r : List (String × α)) :
    lookupKey id (r.map (fun p => (p.1, f p.1 p.2))) = (lookupKey id r).map (f id) := by
  induction r with
  | nil => rfl
  | cons p r ih =>
    by_cases hp : p.1 = id
    · subst hp; simp [lookupKey]
    · simp [lookupKey, hp, ih]

/-- The keys of a full status dictionary. -/
lemma keys_get_status (b : MockTapoBulb) :
    (MockTapoBulb.get_status b).map Prod.fst
      = ["is_on", "brightness", "color_temp", "last_updated"] := rfl

/-- The keys of a shadow-state dictionary. -/
lemma keys_get_shadow_state (b : MockTapoBulb) :
    (MockTapoBulb.get_shadow_state b).map Prod.fst
      = ["is_on", "brightness", "color_temp"] := rfl

/-- The rejection branch of `set_brightness`: failure result without a
`state` entry, bulb returned untouched. -/
lemma set_brightness_reject (now : String) (n : Int) (b : MockTapoBulb)
    (h : n < 0 ∨ 100 < n) :
    MockTapoBulb.set_brightness now n b =
      ({ success := false,
         message := "Brightness must be 0-100, got " ++ toString n,
         state := none }, b) := by
  unfold MockTapoBulb.set_brightness
  rw [if_neg]
  omega

/-- `execute` on an unsupported action name. -/
lemma execute_not_supported (now action : String) (params : Params)
    (b : MockTapoBulb) (h : action ∉ MockTapoBulb.supported_actions) :
    MockTapoBulb.execute now action params b =
      .ok ({ success := false, message := "Unknown action: " ++ action,
             state := some (MockTapoBulb.get_shadow_state b) }, b) := by
  unfold MockTapoBulb.execute
  rw [if_pos h]

/-- `execute` at action `turn_on`. -/
lemma execute_turn_on (now : String) (params : Params) (b : MockTapoBulb) :
    MockTapoBulb.execute now "turn_on" params b =
      .ok (MockTapoBulb.turn_on now b) := rfl

/-- `execute` at action `turn_off`. -/
lemma execute_turn_off (now : String) (params : Params) (b : MockTapoBulb) :
    MockTapoBulb.execute now "turn_off" params b =
      .ok (MockTapoBulb.turn_off now b) := rfl

/-- `execute` at action `get_status`. -/
lemma execute_get_status (now : String) (params : Params) (b : MockTapoBulb) :
    MockTapoBulb.execute now "get_status" params b =
      .ok ({ success := true, message := "Status retrieved",
             state := some (MockTapoBulb.get_status b) }, b) := rfl

/-- `execute` at action `set_brightness` reduces to the parameter check and
conversion around `set_brightness`. -/
lemma execute_set_brightness (now : String) (params : Params) (b : MockTapoBulb) :
    MockTapoBulb.execute now "set_brightness" params b =
      match lookupKey "brightness" params with
      | none =>
        .ok ({ success := false, message := "brightness parameter required",
               state := some (MockTapoBulb.get_shadow_state b) }, b)
      | some .vnull =>
        .ok ({ success := false, message := "brightness parameter required",
               state := some (MockTapoBulb.get_shadow_state b) }, b)
      | some v =>
        match pyInt v with
        | .error e => .error e
        | .ok n => .ok (MockTapoBulb.set_brightness now n b) := rfl

/-- Whenever the result of `set_brightness` carries a state, it has the
three core keys. -/
lemma set_brightness_state_keys (now : String) (n : Int) (b : MockTapoBulb)
    (st : Params)
    (h : (MockTapoBulb.set_brightness now n b).1.state = some st) :
    "is_on" ∈ st.map Prod.fst ∧ "brightness" ∈ st.map Prod.fst
      ∧ "color_temp" ∈ st.map Prod.fst := by
  unfold MockTapoBulb.set_brightness at h
  split at h
  · have h' : some (MockTapoBulb.get_status
        (MockTapoBulb.save_state now
          { b with state := { b.state with brightness := n } })) = some st := h
    cases h'
    rw [keys_get_status]
    exact ⟨by decide, by decide, by decide⟩
  · exact Option.noConfusion h

/-- The `state` entry of a `set_brightness` result is absent exactly on
the out-of-range rejection. -/
lemma set_brightness_result_state_none_iff (now : String) (n : Int)
    (b : MockTapoBulb) :
    (MockTapoBulb.set_brightness now n b).1.state = none ↔ (n < 0 ∨ 100 < n) := by
  unfold MockTapoBulb.set_brightness
  split
  · rename_i hin
    constructor
    · intro hc
      exact Option.noConfusion hc
    · intro hc
      exact absurd hin (by omega)
  · rename_i hout
    constructor
    · intro hc
      omega
    · intro hc
      rfl

/-! ## Claim theorems -/

/-- Claim C6: for every integer brightness outside `[0,100]`,
`set_brightness` — directly and through `execute("set_brightness", ...)` —
returns `success=false` and leaves the device (its `is_on`, `brightness`
and `color_temp`, indeed its whole state and backing store) unchanged. -/
theorem set_brightness_out_of_range_unchanged (now : String) (n : Int)
    (b : MockTapoBulb) (h : n < 0 ∨ 100 < n) :
    MockTapoBulb.set_brightness now n b =
      ({ success := false,
         message := "Brightness must be 0-100, got " ++ toString n,
         state := none }, b)
    ∧ MockTapoBulb.execute now "set_brightness" [("brightness", PVal.vint n)] b =
        .ok (({ success := false,
                message := "Brightness must be 0-100, got " ++ toString n,
                state := none }, b)) := by
  refine ⟨set_brightness_reject now n b h, ?_⟩
  rw [execute_set_brightness]
  show Except.ok (MockTapoBulb.set_brightness now n b) = _
  rw [set_brightness_reject now n b h]

/-- Witness for C6 at `n = 150`. -/
theorem set_brightness_out_of_range_unchanged_witness :
    MockTapoBulb.set_brightness "t1" 150 bulb0 =
      ({ success := false,
         message := "Brightness must be 0-100, got " ++ toString (150 : Int),
         state := none }, bulb0) :=
  (set_brightness_out_of_range_unchanged "t1" 150 bulb0 (Or.inr (by norm_num))).1

/-- Claim C8: round-trip persistence — saving a device's state and
constructing a new `MockTapoBulb` from the same backing store reproduces
the `is_on`, `brightness` and `color_temp` previously set. -/
theorem persisted_state_round_trip (st : BulbState) (file : Option BulbState)
    (now now2 : String) :
    (MockTapoBulb.init
        (MockTapoBulb.save_state now { state := st, state_file := file }).state_file
        now2).state.is_on = st.is_on
    ∧ (MockTapoBulb.init
        (MockTapoBulb.save_state now { state := st, state_file := file }).state_file
        now2).state.brightness = st.brightness
    ∧ (MockTapoBulb.init
        (MockTapoBulb.save_state now { state := st, state_file := file }).state_file
        now2).state.color_temp = st.color_temp :=
  ⟨rfl, rfl, rfl⟩

/-- Claim C7: registering an id that is already present fails with the
`AlreadyRegistered` error and leaves the previously registered device
mapped to that id; after unregistering the id, registering under the same
id succeeds and maps the id to the new device. -/
theorem register_duplicate_fails_reuse_succeeds {α : Type}
    (r : List (String × α)) (id : String) (d0 d d' : α)
    (h : lookupKey id r = some d0) :
    (DeviceRegistry.register id d r).1 = .error ("Device already registered: " ++ id)
    ∧ lookupKey id (DeviceRegistry.register id d r).2 = some d0
    ∧ (DeviceRegistry.register id d' (DeviceRegistry.unregister id r).2).1 = .ok ()
    ∧ lookupKey id (DeviceRegistry.register id d' (DeviceRegistry.unregister id r).2).2
        = some d' := by
  have hn : lookupKey id (DeviceRegistry.unregister id r).2 = none :=
    lookupKey_filter_ne id r
  refine ⟨?_, ?_, ?_, ?_⟩
  · simp [DeviceRegistry.register, h]
  · simp [DeviceRegistry.register, h]
  · simp [DeviceRegistry.register, hn]
  · simp only [DeviceRegistry.register, hn, Option.isSome_none, Bool.false_eq_true,
      if_false]
    rw [lookupKey_append id _ _ hn]
    simp [lookupKey]

/-- Witness for C7 on a one-entry registry. -/
theorem register_duplicate_fails_reuse_succeeds_witness :
    (DeviceRegistry.register "bulb-1" (8 : Nat) [("bulb-1", 7)]).1
      = .error ("Device already registered: " ++ "bulb-1")
    ∧ (DeviceRegistry.register "bulb-1" (9 : Nat)
        (DeviceRegistry.unregister "bulb-1" [("bulb-1", (7 : Nat))]).2).1 = .ok () := by
  have h := register_duplicate_fails_reuse_succeeds
    [("bulb-1", (7 : Nat))] "bulb-1" 7 8 9 rfl
  exact ⟨h.1, h.2.2.1⟩

/-- Counterexample to claim C4 as stated: a non-numeric `brightness` value
makes `execute` raise (`int("abc")` raises `ValueError`), so an exception
does cross the Capability Interface boundary. -/
theorem execute_raises_on_non_numeric_brightness :
    MockTapoBulb.execute "t1" "set_brightness" [("brightness", PVal.vstr "abc")] bulb0
      = Except.error ("invalid literal for int() with base 10: " ++ "abc") := rfl

/-- Claim C4 (amended): `execute` returns a `success=false` result without
raising on an unsupported action name, a missing `brightness` parameter, a
`brightness` parameter that is present but `None`, and an out-of-range
integer `brightness`; only a `brightness` value that does not convert to
an integer raises. -/
theorem execute_rejects_invalid_input_gracefully
    (now action : String) (params : Params) (b : MockTapoBulb) :
    (action ∉ MockTapoBulb.supported_actions →
      MockTapoBulb.execute now action params b =
        .ok ({ success := false, message := "Unknown action: " ++ action,
               state := some (MockTapoBulb.get_shadow_state b) }, b))
    ∧ (lookupKey "brightness" params = none →
      MockTapoBulb.execute now "set_brightness" params b =
        .ok ({ success := false, message := "brightness parameter required",
               state := some (MockTapoBulb.get_shadow_state b) }, b))
    ∧ (lookupKey "brightness" params = some PVal.vnull →
      MockTapoBulb.execute now "set_brightness" params b =
        .ok ({ success := false, message := "brightness parameter required",
               state := some (MockTapoBulb.get_shadow_state b) }, b))
    ∧ (∀ n : Int, lookupKey "brightness" params = some (PVal.vint n) →
        (n < 0 ∨ 100 < n) →
      MockTapoBulb.execute now "set_brightness" params b =
        .ok ({ success := false,
               message := "Brightness must be 0-100, got " ++ toString n,
               state := none }, b)) := by
  refine ⟨?_, ?_, ?_, ?_⟩
  · intro h
    unfold MockTapoBulb.execute
    rw [if_pos h]
  · intro h
    rw [execute_set_brightness, h]
  · intro h
    rw [execute_set_brightness, h]
  · intro n h hn
    rw [execute_set_brightness, h]
    show Except.ok (MockTapoBulb.set_brightness now n b) = _
    rw [set_brightness_reject now n b hn]

/-- Witness for C4 (amended) at an unsupported action. -/
theorem execute_rejects_invalid_input_gracefully_witness :
    MockTapoBulb.execute "t1" "disco" [] bulb0 =
      .ok ({ success := false, message := "Unknown action: " ++ "disco",
             state := some (MockTapoBulb.get_shadow_state bulb0) }, bulb0) :=
  (execute_rejects_invalid_input_gracefully "t1" "disco" [] bulb0).1 (by decide)

/-- Counterexample to claim C5 as stated: `execute("set_brightness", ...)`
with an out-of-range value returns a result with no `state` entry at all. -/
theorem execute_out_of_range_result_lacks_state :
    MockTapoBulb.execute "t1" "set_brightness" [("brightness", PVal.vint 150)] bulb0
      = .ok ({ success := false,
               message := "Brightness must be 0-100, got " ++ toString (150 : Int),
               state := none }, bulb0) := by
  rw [execute_set_brightness]
  show Except.ok (MockTapoBulb.set_brightness "t1" 150 bulb0) = _
  rw [set_brightness_reject "t1" 150 bulb0 (Or.inr (by norm_num))]

/-- Claim C5 (amended): whenever a result of `execute` carries a `state`
entry, that state contains the keys `is_on`, `brightness` and
`color_temp`; and the `state` entry is absent exactly when the action is
`set_brightness` with a brightness value that converts to an integer
outside `[0, 100]`. -/
theorem execute_state_field_has_core_keys
    (now action : String) (params : Params) (b b' : MockTapoBulb)
    (r : MockTapoBulb.ExecResult)
    (h : MockTapoBulb.execute now action params b = .ok (r, b')) :
    (∀ st, r.state = some st →
      "is_on" ∈ st.map Prod.fst ∧ "brightness" ∈ st.map Prod.fst
        ∧ "color_temp" ∈ st.map Prod.fst)
    ∧ (r.state = none ↔
        action = "set_brightness"
          ∧ ∃ v n, lookupKey "brightness" params = some v
              ∧ pyInt v = Except.ok n ∧ (n < 0 ∨ 100 < n)) := by
  by_cases hmem : action ∈ MockTapoBulb.supported_actions
  · simp only [MockTapoBulb.supported_actions, List.mem_cons,
      List.not_mem_nil, or_false] at hmem
    rcases hmem with rfl | rfl | rfl | rfl
    · rw [execute_turn_on] at h
      have h1 := Except.ok.inj h
      cases h1
      refine ⟨?_, ?_⟩
      · intro st hst
        cases hst
        rw [keys_get_status]
        exact ⟨by decide, by decide, by decide⟩
      · constructor
        · intro hn; exact Option.noConfusion hn
        · rintro ⟨hact, -⟩; exact absurd hact (by decide)
    · rw [execute_turn_off] at h
      have h1 := Except.ok.inj h
      cases h1
      refine ⟨?_, ?_⟩
      · intro st hst
        cases hst
        rw [keys_get_status]
        exact ⟨by decide, by decide, by decide⟩
      · constructor
        · intro hn; exact Option.noConfusion hn
        · rintro ⟨hact, -⟩; exact absurd hact (by decide)
    · rw [execute_set_brightness] at h
      cases hlk : lookupKey "brightness" params with
      | none =>
        rw [hlk] at h
        have h1 := Except.ok.inj h
        cases h1
        refine ⟨?_, ?_⟩
        · intro st hst
          cases hst
          rw [keys_get_shadow_state]
          exact ⟨by decide, by decide, by decide⟩
        · constructor
          · intro hn; exact Option.noConfusion hn
          · rintro ⟨-, v, n, hlk', -, -⟩
            exact Option.noConfusion hlk'
      | some v =>
        rw [hlk] at h
        cases v with
        | vnull =>
          have h1 := Except.ok.inj h
          cases h1
          refine ⟨?_, ?_⟩
          · intro st hst
            cases hst
            rw [keys_get_shadow_state]
            exact ⟨by decide, by decide, by decide⟩
          · constructor
            · intro hn; exact Option.noConfusion hn
            · rintro ⟨-, v', n', hlk', hpi', -⟩
              have hv := Option.some.inj hlk'
              rw [← hv] at hpi'
              simp [pyInt] at hpi'
        | vbool bb =>
          have h2 : Except.ok (ε := String)
              (MockTapoBulb.set_brightness now (if bb then (1 : Int) else 0) b)
              = Except.ok (r, b') := h
          have h1 := Except.ok.inj h2
          have hr : (MockTapoBulb.set_brightness now
              (if bb then (1 : Int) else 0) b).1 = r := congrArg Prod.fst h1
          subst hr
          refine ⟨fun st hst => set_brightness_state_keys now _ b st hst, ?_⟩
          rw [set_brightness_result_state_none_iff]
          constructor
          · intro hrange
            exact ⟨rfl, PVal.vbool bb, if bb then (1 : Int) else 0, rfl, rfl,
              hrange⟩
          · rintro ⟨-, v', n', hlk', hpi', hrange'⟩
            have hv := Option.some.inj hlk'
            rw [← hv] at hpi'
            have hpi2 : Except.ok (ε := String) (if bb then (1 : Int) else 0)
                = Except.ok n' := hpi'
            have hk := Except.ok.inj hpi2
            rw [← hk] at hrange'
            exact hrange'
        | vint m =>
          have h2 : Except.ok (ε := String) (MockTapoBulb.set_brightness now m b)
              = Except.ok (r, b') := h
          have h1 := Except.ok.inj h2
          have hr : (MockTapoBulb.set_brightness now m b).1 = r :=
            congrArg Prod.fst h1
          subst hr
          refine ⟨fun st hst => set_brightness_state_keys now m b st hst, ?_⟩
          rw [set_brightness_result_state_none_iff]
          constructor
          · intro hrange
            exact ⟨rfl, PVal.vint m, m, rfl, rfl, hrange⟩
          · rintro ⟨-, v', n', hlk', hpi', hrange'⟩
            have hv := Option.some.inj hlk'
            rw [← hv] at hpi'
            have hpi2 : Except.ok (ε := String) m = Except.ok n' := hpi'
            have hk := Except.ok.inj hpi2
            rw [← hk] at hrange'
            exact hrange'
        | vstr s =>
          simp only [pyInt] at h
          cases hps : pyParseInt s with
          | none =>
            rw [hps] at h
            cases h
          | some m =>
            rw [hps] at h
            have h2 : Except.ok (ε := String)
                (MockTapoBulb.set_brightness now m b) = Except.ok (r, b') := h
            have h1 := Except.ok.inj h2
            have hr : (MockTapoBulb.set_brightness now m b).1 = r :=
              congrArg Prod.fst h1
            subst hr
            refine ⟨fun st hst => set_brightness_state_keys now m b st hst, ?_⟩
            rw [set_brightness_result_state_none_iff]
            constructor
            · intro hrange
              refine ⟨rfl, PVal.vstr s, m, rfl, ?_, hrange⟩
              simp [pyInt, hps]
            · rintro ⟨-, v', n', hlk', hpi', hrange'⟩
              have hv := Option.some.inj hlk'
              rw [← hv] at hpi'
              have hpim : pyInt (PVal.vstr s) = Except.ok m := by
                simp [pyInt, hps]
              rw [hpim] at hpi'
              have hk := Except.ok.inj hpi'
              rw [← hk] at hrange'
              exact hrange'
    · rw [execute_get_status] at h
      have h1 := Except.ok.inj h
      cases h1
      refine ⟨?_, ?_⟩
      · intro st hst
        cases hst
        rw [keys_get_status]
        exact ⟨by decide, by decide, by decide⟩
      · constructor
        · intro hn; exact Option.noConfusion hn
        · rintro ⟨hact, -⟩; exact absurd hact (by decide)
  · rw [execute_not_supported now action params b hmem] at h
    have h1 := Except.ok.inj h
    cases h1
    refine ⟨?_, ?_⟩
    · intro st hst
      cases hst
      rw [keys_get_shadow_state]
      exact ⟨by decide, by decide, by decide⟩
    · constructor
      · intro hn; exact Option.noConfusion hn
      · rintro ⟨rfl, -⟩
        exact (hmem (by decide)).elim

/-- Witness for C5 (amended) at `turn_on`. -/
theorem execute_state_field_has_core_keys_witness :
    "is_on" ∈ (MockTapoBulb.get_status (MockTapoBulb.turn_on "t1" bulb0).2).map Prod.fst
    ∧ "brightness" ∈
        (MockTapoBulb.get_status (MockTapoBulb.turn_on "t1" bulb0).2).map Prod.fst
    ∧ "color_temp" ∈
        (MockTapoBulb.get_status (MockTapoBulb.turn_on "t1" bulb0).2).map Prod.fst :=
  (execute_state_field_has_core_keys "t1" "turn_on" [] bulb0
      (MockTapoBulb.turn_on "t1" bulb0).2 (MockTapoBulb.turn_on "t1" bulb0).1
      rfl).1
    (MockTapoBulb.get_status (MockTapoBulb.turn_on "t1" bulb0).2) rfl

/-! ## Bridge lemmas -/

/-- `handle_command` when the topic's action has a handler. -/
lemma handle_command_handler_branch (topic : String) (payload : InPayload)
    (generated now : String) (b : BridgeState)
    (h : IoTBridge.topic_action topic ∈ IoTBridge.action_handlers) :
    IoTBridge.handle_command topic payload generated now b
      = match IoTBridge.run_handler now (IoTBridge.topic_action topic)
          (IoTBridge.params_of payload) b.bulb with
        | .error e =>
          (b, TOp.dispatch (IoTBridge.topic_action topic)
            :: IoTBridge.publish_response (IoTBridge.except_request_id payload)
                 false e [] now b)
        | .ok (result, bulb') =>
          ({ b with bulb := bulb' },
           TOp.dispatch (IoTBridge.topic_action topic)
             :: (IoTBridge.publish_response
                   (IoTBridge.request_id_of payload generated)
                   result.success result.message (result.state.getD []) now b
                 ++ (if result.success && b.shadow_manager then
                       [TOp.shadowUpdate ((result.state.getD [])
                         ++ [("bridge_connected", PVal.vbool true),
                             ("device_reachable", PVal.vbool true)])]
                     else []))) := by
  simp only [IoTBridge.handle_command]
  rw [if_pos h]

/-- The `request_id` member of a response payload. -/
lemma lookup_request_id_response (rid : String) (success : Bool)
    (msg : String) (st : Params) (now : String) :
    lookupKey "request_id" (IoTBridge.response_payload rid success msg st now)
      = some (RVal.rstr rid) := rfl

/-- With empty parameters no handler raises: `int(...)` is never reached. -/
lemma run_handler_empty_params_ok (now action : String) (bulb : MockTapoBulb)
    (h : action ∈ IoTBridge.action_handlers) :
    ∃ result bulb',
      IoTBridge.run_handler now action [] bulb = .ok (result, bulb') := by
  simp only [IoTBridge.action_handlers, List.mem_cons, List.not_mem_nil,
    or_false] at h
  rcases h with rfl | rfl | rfl | rfl
  · exact ⟨_, _, rfl⟩
  · exact ⟨_, _, rfl⟩
  · exact ⟨_, _, rfl⟩
  · exact ⟨_, _, rfl⟩

/-- Filtering publishes out of the conditional shadow-update event gives
nothing. -/
lemma filter_isPublish_ite_shadow (c : Prop) [Decidable c] (x : Params) :
    (if c then [TOp.shadowUpdate x] else []).filter isPublish = [] := by
  split
  · rfl
  · rfl

/-- `turn_on` does not change `color_temp`. -/
lemma turn_on_color_temp (now : String) (b : MockTapoBulb) :
    ((MockTapoBulb.turn_on now b).2).state.color_temp = b.state.color_temp := rfl

/-- `turn_off` does not change `color_temp`. -/
lemma turn_off_color_temp (now : String) (b : MockTapoBulb) :
    ((MockTapoBulb.turn_off now b).2).state.color_temp = b.state.color_temp := rfl

/-- `set_brightness` does not change `color_temp`. -/
lemma set_brightness_color_temp (now : String) (n : Int) (b : MockTapoBulb) :
    ((MockTapoBulb.set_brightness now n b).2).state.color_temp
      = b.state.color_temp := by
  unfold MockTapoBulb.set_brightness
  split
  · rfl
  · rfl

/-- The `is_on` block does not change `color_temp`. -/
lemma apply_is_on_color_temp (now : String) (patch : Params)
    (b : MockTapoBulb) :
    (MockTapoBulb.apply_is_on now patch b).state.color_temp
      = b.state.color_temp := by
  unfold MockTapoBulb.apply_is_on
  split
  · rfl
  · split
    · exact turn_on_color_temp now b
    · exact turn_off_color_temp now b

/-- The `brightness` block does not change `color_temp`. -/
lemma apply_brightness_color_temp (now : String) (patch : Params)
    (b : MockTapoBulb) :
    ((MockTapoBulb.apply_brightness now patch b).2).state.color_temp
      = b.state.color_temp := by
  unfold MockTapoBulb.apply_brightness
  split
  · rfl
  · split
    · rfl
    · exact set_brightness_color_temp now _ b

/-- The device-level desired-state application does not change
`color_temp`, whatever the patch holds. -/
lemma apply_desired_state_color_temp (now : String) (patch : Params)
    (b : MockTapoBulb) :
    ((MockTapoBulb.apply_desired_state now patch b).2).state.color_temp
      = b.state.color_temp := by
  unfold MockTapoBulb.apply_desired_state
  rw [apply_brightness_color_temp]
  exact apply_is_on_color_temp now patch b

/-! ## Bridge claim theorems -/

/-- Counterexample to claim C1 as stated: after exactly 3 consecutive
failed `start()` attempts from the initial state, the bridge is not
Disabled (the doubled reconnect delay has only reached 8 of 128). -/
theorem bridge_not_disabled_after_three_failed_starts :
    (iterate_failed_starts 3 (IoTBridge.init "test-device" bulb0)).disabled
      = false := by
  have e1 : (IoTBridge.start false (IoTBridge.init "test-device" bulb0)).2.1
      = ⟨"test-device", bulb0, true, false, false, false, 2⟩ := rfl
  have e2 : (IoTBridge.start false
        (⟨"test-device", bulb0, true, false, false, false, 2⟩ : BridgeState)).2.1
      = ⟨"test-device", bulb0, true, false, false, false, 4⟩ := rfl
  have e3 : (IoTBridge.start false
        (⟨"test-device", bulb0, true, false, false, false, 4⟩ : BridgeState)).2.1
      = ⟨"test-device", bulb0, true, false, false, false, 8⟩ := rfl
  have i3 : iterate_failed_starts 3 (IoTBridge.init "test-device" bulb0)
      = ⟨"test-device", bulb0, true, false, false, false, 8⟩ := by
    show iterate_failed_starts 2
      (IoTBridge.start false (IoTBridge.init "test-device" bulb0)).2.1 = _
    rw [e1]
    show iterate_failed_starts 1
      (IoTBridge.start false
        (⟨"test-device", bulb0, true, false, false, false, 2⟩ : BridgeState)).2.1 = _
    rw [e2]
    show iterate_failed_starts 0
      (IoTBridge.start false
        (⟨"test-device", bulb0, true, false, false, false, 4⟩ : BridgeState)).2.1 = _
    rw [e3]
    rfl
  rw [i3]

/-- Claim C1 (amended): from the initial state, the bridge is Disabled
after exactly 7 consecutive failed `start()` attempts — the reconnect
delay doubles from 1 and the bridge is disabled when it reaches 128 — and
not after 6; once Disabled, every subsequent `start()` returns `false`
immediately, leaving the state unchanged and performing no connect or
subscribe operation on the transport. -/
theorem bridge_disabled_after_seven_failed_starts
    (device_id : String) (bulb : MockTapoBulb) :
    (iterate_failed_starts 6 (IoTBridge.init device_id bulb)).disabled = false
    ∧ (iterate_failed_starts 7 (IoTBridge.init device_id bulb)).disabled = true
    ∧ ∀ ok : Bool,
        IoTBridge.start ok (iterate_failed_starts 7 (IoTBridge.init device_id bulb))
          = (false, iterate_failed_starts 7 (IoTBridge.init device_id bulb), []) := by
  have e1 : (IoTBridge.start false (IoTBridge.init device_id bulb)).2.1
      = ⟨device_id, bulb, true, false, false, false, 2⟩ := rfl
  have e2 : (IoTBridge.start false
        (⟨device_id, bulb, true, false, false, false, 2⟩ : BridgeState)).2.1
      = ⟨device_id, bulb, true, false, false, false, 4⟩ := rfl
  have e3 : (IoTBridge.start false
        (⟨device_id, bulb, true, false, false, false, 4⟩ : BridgeState)).2.1
      = ⟨device_id, bulb, true, false, false, false, 8⟩ := rfl
  have e4 : (IoTBridge.start false
        (⟨device_id, bulb, true, false, false, false, 8⟩ : BridgeState)).2.1
      = ⟨device_id, bulb, true, false, false, false, 16⟩ := rfl
  have e5 : (IoTBridge.start false
        (⟨device_id, bulb, true, false, false, false, 16⟩ : BridgeState)).2.1
      = ⟨device_id, bulb, true, false, false, false, 32⟩ := rfl
  have e6 : (IoTBridge.start false
        (⟨device_id, bulb, true, false, false, false, 32⟩ : BridgeState)).2.1
      = ⟨device_id, bulb, true, false, false, false, 64⟩ := rfl
  have e7 : (IoTBridge.start false
        (⟨device_id, bulb, true, false, false, false, 64⟩ : BridgeState)).2.1
      = ⟨device_id, bulb, true, false, false, true, 128⟩ := rfl
  have i6 : iterate_failed_starts 6 (IoTBridge.init device_id bulb)
      = ⟨device_id, bulb, true, false, false, false, 64⟩ := by
    show iterate_failed_starts 5
      (IoTBridge.start false (IoTBridge.init device_id bulb)).2.1 = _
    rw [e1]
    show iterate_failed_starts 4
      (IoTBridge.start false
        (⟨device_id, bulb, true, false, false, false, 2⟩ : BridgeState)).2.1 = _
    rw [e2]
    show iterate_failed_starts 3
      (IoTBridge.start false
        (⟨device_id, bulb, true, false, false, false, 4⟩ : BridgeState)).2.1 = _
    rw [e3]
    show iterate_failed_starts 2
      (IoTBridge.start false
        (⟨device_id, bulb, true, false, false, false, 8⟩ : BridgeState)).2.1 = _
    rw [e4]
    show iterate_failed_starts 1
      (IoTBridge.start false
        (⟨device_id, bulb, true, false, false, false, 16⟩ : BridgeState)).2.1 = _
    rw [e5]
    show iterate_failed_starts 0
      (IoTBridge.start false
        (⟨device_id, bulb, true, false, false, false, 32⟩ : BridgeState)).2.1 = _
    rw [e6]
    rfl
  have i7 : iterate_failed_starts 7 (IoTBridge.init device_id bulb)
      = ⟨device_id, bulb, true, false, false, true, 128⟩ := by
    show iterate_failed_starts 6
      (IoTBridge.start false (IoTBridge.init device_id bulb)).2.1 = _
    rw [e1]
    show iterate_failed_starts 5
      (IoTBridge.start false
        (⟨device_id, bulb, true, false, false, false, 2⟩ : BridgeState)).2.1 = _
    rw [e2]
    show iterate_failed_starts 4
      (IoTBridge.start false
        (⟨device_id, bulb, true, false, false, false, 4⟩ : BridgeState)).2.1 = _
    rw [e3]
    show iterate_failed_starts 3
      (IoTBridge.start false
        (⟨device_id, bulb, true, false, false, false, 8⟩ : BridgeState)).2.1 = _
    rw [e4]
    show iterate_failed_starts 2
      (IoTBridge.start false
        (⟨device_id, bulb, true, false, false, false, 16⟩ : BridgeState)).2.1 = _
    rw [e5]
    show iterate_failed_starts 1
      (IoTBridge.start false
        (⟨device_id, bulb, true, false, false, false, 32⟩ : BridgeState)).2.1 = _
    rw [e6]
    show iterate_failed_starts 0
      (IoTBridge.start false
        (⟨device_id, bulb, true, false, false, false, 64⟩ : BridgeState)).2.1 = _
    rw [e7]
    rfl
  refine ⟨?_, ?_, ?_⟩
  · rw [i6]
  · rw [i7]
  · intro ok
    rw [i7]
    rfl

/-- Claim C2 (code bug), evaluated at the claim's scenario: a command whose
topic names the unregistered device id `unknown-device`, against a bridge
configured for `test-device`, is dispatched to the single configured bulb
and answered with one success response (`"Bulb turned on"`) on the
configured `smarthome/test-device/responses/{request_id}` topic — there is
no unknown-device lookup or failure response anywhere in the handler. -/
theorem unknown_device_topic_dispatched_to_bulb :
    IoTBridge.handle_command "smarthome/unknown-device/commands/turn_on"
        (InPayload.json (some "test-unknown") none) "g" "t" bridge_started
      = ({ bridge_started with bulb := (MockTapoBulb.turn_on "t" bulb0).2 },
         [TOp.dispatch "turn_on",
          TOp.publish "smarthome/test-device/responses/test-unknown"
            (IoTBridge.response_payload "test-unknown" true "Bulb turned on"
              (MockTapoBulb.get_status (MockTapoBulb.turn_on "t" bulb0).2) "t"),
          TOp.shadowUpdate
            (MockTapoBulb.get_status (MockTapoBulb.turn_on "t" bulb0).2
              ++ [("bridge_connected", PVal.vbool true),
                  ("device_reachable", PVal.vbool true)])]) := rfl

/-- Claim C9: an inbound command whose payload is not valid JSON is handled
exactly like one carrying an empty JSON object — empty parameter map and a
generated `request_id` — rather than dropped: when the topic's action has a
handler and a connection is held, the action is still dispatched and
exactly one response is still published, carrying the generated
`request_id`. -/
theorem malformed_payload_not_dropped
    (topic generated now : String) (b : BridgeState)
    (hact : IoTBridge.topic_action topic ∈ IoTBridge.action_handlers)
    (hconn : b.connection = true) :
    IoTBridge.handle_command topic .malformed generated now b
      = IoTBridge.handle_command topic (.json none none) generated now b
    ∧ TOp.dispatch (IoTBridge.topic_action topic)
        ∈ (IoTBridge.handle_command topic .malformed generated now b).2
    ∧ ∃ pl,
        ((IoTBridge.handle_command topic .malformed generated now b).2).filter
            isPublish
          = [TOp.publish
              ("smarthome/" ++ b.device_id ++ "/responses/" ++ generated) pl]
        ∧ lookupKey "request_id" pl = some (RVal.rstr generated) := by
  obtain ⟨result, bulb', hrh⟩ :=
    run_handler_empty_params_ok now (IoTBridge.topic_action topic) b.bulb hact
  refine ⟨rfl, ?_, ?_⟩
  · rw [handle_command_handler_branch topic _ generated now b hact]
    simp only [IoTBridge.params_of]
    rw [hrh]
    exact List.mem_cons_self _ _
  · rw [handle_command_handler_branch topic _ generated now b hact]
    simp only [IoTBridge.params_of]
    rw [hrh]
    refine ⟨IoTBridge.response_payload generated result.success result.message
      (result.state.getD []) now, ?_, lookup_request_id_response _ _ _ _ _⟩
    simp [List.filter_cons, List.filter_append, isPublish,
      IoTBridge.publish_response, hconn, IoTBridge.request_id_of,
      filter_isPublish_ite_shadow]

/-- Witness for C9 at a concrete malformed `turn_on` command. -/
theorem malformed_payload_not_dropped_witness :
    TOp.dispatch (IoTBridge.topic_action "smarthome/test-device/commands/turn_on")
      ∈ (IoTBridge.handle_command "smarthome/test-device/commands/turn_on"
          InPayload.malformed "g" "t" bridge_started).2 :=
  (malformed_payload_not_dropped "smarthome/test-device/commands/turn_on"
    "g" "t" bridge_started (by decide) rfl).2.1

/-- Claim C10: applying a desired-state patch mutates only `is_on` and
`brightness`: both the device-level `apply_desired_state` and the bridge's
`_apply_desired_state` delta handler leave the bulb's `color_temp`
unchanged, even when the patch contains a `color_temp` key. -/
theorem desired_state_preserves_color_temp :
    (∀ (now : String) (patch : Params) (b : MockTapoBulb),
      ((MockTapoBulb.apply_desired_state now patch b).2).state.color_temp
        = b.state.color_temp)
    ∧ (∀ (now : String) (desired : Params) (b : BridgeState),
      ((IoTBridge.apply_desired_state now desired b).1).bulb.state.color_temp
        = b.bulb.state.color_temp) := by
  refine ⟨apply_desired_state_color_temp, ?_⟩
  intro now desired b
  show (MockTapoBulb.apply_brightness now desired
      (MockTapoBulb.apply_is_on now desired b.bulb)).2.state.color_temp
    = b.bulb.state.color_temp
  rw [apply_brightness_color_temp]
  exact apply_is_on_color_temp now desired b.bulb

end SmartHome
